import Mathlib

/-!
Shallow embedding of the enviromoon-mobile client (src/lib/api.ts,
src/app/(tabs)/dashboard.tsx, src/app/(tabs)/settings.tsx).

Conventions of the embedding:

* A JavaScript number is modelled as `JSNum := Option ℚ`; `none` stands for a
  non-finite value (`NaN`, the result of `0/0`, or a non-numeric field, i.e.
  everything rejected by `typeof x === "number" && !isNaN(x)` or by
  `Number.isFinite`).  Every zero-denominator division reachable in the
  sources has a zero numerator, so the only non-finite value the dashboard
  ever produces is `NaN`, which `none` represents exactly.
* `fetch` together with `response.json()` is abstracted into an explicit
  argument of type `FetchOutcome β := Option (HttpResponse β)`: `none` models
  a thrown transport or JSON-parse error, `some resp` a settled HTTP response
  whose parsed body is `resp.body`.  Each API function of src/lib/api.ts then
  becomes a pure function of that outcome, reproducing its `response.ok`
  checks, fallback values and rethrows.
* Display strings produced by `toFixed(1)` / `toString()` are kept as the
  numbers they render (`StatDisplay.val`), with the `"--"` placeholder as
  `StatDisplay.unavailable`.  `Math.round`, which changes the number itself
  before display, is embedded (`jsRound`).
-/

/-- A JavaScript number: `some q` is a finite value, `none` is NaN (or any
other non-finite / non-numeric value; see the header comment). -/
abbrev JSNum := Option ℚ

/-- JS addition: NaN propagates. -/
def jsAdd : JSNum → JSNum → JSNum
  | some a, some b => some (a + b)
  | _, _ => none

/-- JS subtraction: NaN propagates. -/
def jsSub : JSNum → JSNum → JSNum
  | some a, some b => some (a - b)
  | _, _ => none

/-- `arr.reduce((a, b) => a + b, 0)`. -/
def jsSum (l : List JSNum) : JSNum := l.foldl jsAdd (some 0)

/-- Division of a JS number by an array length.  A zero denominator yields a
non-finite result; in the sources the numerator is `0` whenever the
denominator is (the empty slice summed to `0`), so the result is `0/0 = NaN`,
i.e. `none`. -/
def jsDivNat (x : JSNum) (n : ℕ) : JSNum :=
  match x with
  | some q => if n = 0 then none else some (q / (n : ℚ))
  | none => none

/-- Binary `Math.min`: NaN propagates. -/
def jsMin2 : JSNum → JSNum → JSNum
  | some a, some b => some (min a b)
  | _, _ => none

/-- Binary `Math.max`: NaN propagates. -/
def jsMax2 : JSNum → JSNum → JSNum
  | some a, some b => some (max a b)
  | _, _ => none

/-- `Math.min(...l)` for the non-empty arrays it is applied to. -/
def jsListMin : List JSNum → JSNum
  | [] => none
  | [x] => x
  | x :: y :: xs => jsMin2 x (jsListMin (y :: xs))

/-- `Math.max(...l)` for the non-empty arrays it is applied to. -/
def jsListMax : List JSNum → JSNum
  | [] => none
  | [x] => x
  | x :: y :: xs => jsMax2 x (jsListMax (y :: xs))

/-- `Math.round`: round half towards positive infinity; NaN propagates. -/
def jsRound : JSNum → JSNum
  | none => none
  | some q => some ((⌊q + 1/2⌋ : ℤ) : ℚ)

/-- `interface SensorData` of src/lib/api.ts. -/
structure SensorData where
  temperature : JSNum
  humidity : JSNum
  ldr : JSNum
  timestamp : String
deriving Repr, DecidableEq

/-- `interface LatestSensorReading` of src/lib/api.ts (the optional
`formatted` field is never read and is omitted). -/
structure LatestSensorReading where
  temperature : JSNum
  humidity : JSNum
  ldr : JSNum
  timestamp : String
  message : Option String
deriving Repr, DecidableEq

/-- The `statistics` sub-object of `interface ConnectionStatus`. -/
structure ConnectionStatistics where
  totalDataReceived : ℕ
  totalCommandsSent : ℕ
deriving Repr, DecidableEq

/-- `interface ConnectionStatus` of src/lib/api.ts (the three `any`-typed
timestamp fields are kept as optional strings). -/
structure ConnectionStatus where
  isConnected : Bool
  lastDataReceived : Option String
  lastStatusUpdate : Option String
  lastCommandPoll : Option String
  statistics : ConnectionStatistics
  latestSensorData : Option SensorData
deriving Repr, DecidableEq

/-- `interface DeviceStatus` of src/lib/api.ts. -/
structure DeviceStatus where
  connected : Bool
  uptime : ℚ
  totalReadings : ℚ
  serialPort : String
  timestamp : Option String
  message : Option String
deriving Repr, DecidableEq

/-- A `{min, max}` threshold pair. -/
structure ThresholdRange where
  min : ℚ
  max : ℚ
deriving Repr, DecidableEq

/-- The `alertThresholds` sub-object of `interface DeviceSettings`. -/
structure AlertThresholds where
  temperature : ThresholdRange
  humidity : ThresholdRange
  light : ThresholdRange
deriving Repr, DecidableEq

/-- `interface DeviceSettings` of src/lib/api.ts. -/
structure DeviceSettings where
  temperatureOffset : ℚ
  humidityOffset : ℚ
  lightThreshold : ℚ
  alertThresholds : AlertThresholds
  autoReconnect : Bool
  debugMode : Bool
deriving Repr, DecidableEq

/-- A settled HTTP response with parsed body: `ok` is `response.ok`
(status in 200..299), `status` is `response.status`. -/
structure HttpResponse (β : Type) where
  ok : Bool
  status : ℕ
  body : β
deriving Repr, DecidableEq

/-- Outcome of `fetch` plus body parsing: `none` models a thrown transport
or parse error (unreachable host, timeout, malformed JSON). -/
abbrev FetchOutcome (β : Type) := Option (HttpResponse β)

/-- Errors thrown by src/lib/api.ts: `serverError s` is
`new Error(\x60Server Error: ${s}\x60)`; `networkError` is the rethrown
transport/parse failure. -/
inductive ApiError where
  | serverError (status : ℕ)
  | networkError
deriving Repr, DecidableEq

/-- The safe default returned by `getLatestSensorReading` on any failure:
a zeroed reading stamped with the current time and `message: "Not
Connected"`. -/
def notConnectedReading (now : String) : LatestSensorReading :=
  { temperature := some 0
    humidity := some 0
    ldr := some 0
    timestamp := now
    message := some "Not Connected" }

/-- `getLatestSensorReading`: throws on `!response.ok`, but the catch block
turns every error (transport, non-2xx, parse) into the safe default. -/
def getLatestSensorReading (now : String)
    (r : FetchOutcome LatestSensorReading) : LatestSensorReading :=
  match r with
  | some resp => if resp.ok then resp.body else notConnectedReading now
  | none => notConnectedReading now

/-- The fallback value of `getConnectionStatus`. -/
def connectionFallback : ConnectionStatus :=
  { isConnected := false
    lastDataReceived := none
    lastStatusUpdate := none
    lastCommandPoll := none
    statistics := { totalDataReceived := 0, totalCommandsSent := 0 }
    latestSensorData := none }

/-- `getConnectionStatus`: any failure yields the disconnected fallback. -/
def getConnectionStatus (r : FetchOutcome ConnectionStatus) :
    ConnectionStatus :=
  match r with
  | some resp => if resp.ok then resp.body else connectionFallback
  | none => connectionFallback

/-- The query string built by `getSensorDataByRange`: note that when `limit`
is absent (or `0`, which is falsy in JS) the client itself supplies
`"100"`. -/
def rangeParams (start endTime : String) (limit : Option ℕ) :
    List (String × String) :=
  [("start", start), ("end", endTime),
   ("limit", match limit with
             | some l => if l = 0 then "100" else toString l
             | none => "100")]

/-- `getSensorDataByRange`: a non-ok response returns `[]` directly, and the
catch block returns `[]` as well; it never throws. -/
def getSensorDataByRange (r : FetchOutcome (List SensorData)) :
    List SensorData :=
  match r with
  | some resp => if resp.ok then resp.body else []
  | none => []

/-- `queueCommand`: no `response.ok` check at all — the parsed body is
returned whatever the status; only transport/parse errors are rethrown. -/
def queueCommand {β : Type} (r : FetchOutcome β) : Except ApiError β :=
  match r with
  | some resp => Except.ok resp.body
  | none => Except.error ApiError.networkError

/-- `updateSamplingInterval`: same shape as `queueCommand`, no
`response.ok` check. -/
def updateSamplingInterval {β : Type} (r : FetchOutcome β) :
    Except ApiError β :=
  match r with
  | some resp => Except.ok resp.body
  | none => Except.error ApiError.networkError

/-- `enableTempSensor`: throws `Server Error: status` on non-2xx and
rethrows transport/parse errors. -/
def enableTempSensor {β : Type} (r : FetchOutcome β) : Except ApiError β :=
  match r with
  | some resp =>
      if resp.ok then Except.ok resp.body
      else Except.error (ApiError.serverError resp.status)
  | none => Except.error ApiError.networkError

/-- `disableTempSensor`: same contract as `enableTempSensor`. -/
def disableTempSensor {β : Type} (r : FetchOutcome β) : Except ApiError β :=
  match r with
  | some resp =>
      if resp.ok then Except.ok resp.body
      else Except.error (ApiError.serverError resp.status)
  | none => Except.error ApiError.networkError

/-- `enableLightSensor`: same contract as `enableTempSensor`. -/
def enableLightSensor {β : Type} (r : FetchOutcome β) : Except ApiError β :=
  match r with
  | some resp =>
      if resp.ok then Except.ok resp.body
      else Except.error (ApiError.serverError resp.status)
  | none => Except.error ApiError.networkError

/-- `disableLightSensor`: same contract as `enableTempSensor`. -/
def disableLightSensor {β : Type} (r : FetchOutcome β) : Except ApiError β :=
  match r with
  | some resp =>
      if resp.ok then Except.ok resp.body
      else Except.error (ApiError.serverError resp.status)
  | none => Except.error ApiError.networkError

/-- The fallback value of `getDeviceStatus`. -/
def deviceStatusFallback : DeviceStatus :=
  { connected := false
    uptime := 0
    totalReadings := 0
    serialPort := "N/A"
    timestamp := none
    message := some "Not Connected" }

/-- `getDeviceStatus`: any failure yields the disconnected/zeroed record. -/
def getDeviceStatus (r : FetchOutcome DeviceStatus) : DeviceStatus :=
  match r with
  | some resp => if resp.ok then resp.body else deviceStatusFallback
  | none => deviceStatusFallback

/-- `getDeviceSettings`: throws on non-2xx and rethrows every caught error —
the one read operation with no safe default. -/
def getDeviceSettings (r : FetchOutcome DeviceSettings) :
    Except ApiError DeviceSettings :=
  match r with
  | some resp =>
      if resp.ok then Except.ok resp.body
      else Except.error (ApiError.serverError resp.status)
  | none => Except.error ApiError.networkError

/-- `updateCalibration`: posts the three offsets, throws on non-2xx,
rethrows caught errors. -/
def updateCalibration {β : Type}
    (temperatureOffset humidityOffset lightThreshold : ℚ)
    (r : FetchOutcome β) : Except ApiError β :=
  match r with
  | some resp =>
      if resp.ok then Except.ok resp.body
      else Except.error (ApiError.serverError resp.status)
  | none => Except.error ApiError.networkError

/-- `updateAlertThresholds`: posts the two ranges, throws on non-2xx,
rethrows caught errors. -/
def updateAlertThresholds {β : Type}
    (temperature humidity : ThresholdRange)
    (r : FetchOutcome β) : Except ApiError β :=
  match r with
  | some resp =>
      if resp.ok then Except.ok resp.body
      else Except.error (ApiError.serverError resp.status)
  | none => Except.error ApiError.networkError

/-- `triggerImmediateRead`: throws on non-2xx, rethrows caught errors. -/
def triggerImmediateRead {β : Type} (r : FetchOutcome β) :
    Except ApiError β :=
  match r with
  | some resp =>
      if resp.ok then Except.ok resp.body
      else Except.error (ApiError.serverError resp.status)
  | none => Except.error ApiError.networkError

/-- The four device-control actions. -/
inductive ControlAction where
  | led_on
  | led_off
  | reset
  | restart
deriving Repr, DecidableEq

/-- `deviceControl`: throws on non-2xx, rethrows caught errors. -/
def deviceControl {β : Type} (action : ControlAction) (r : FetchOutcome β) :
    Except ApiError β :=
  match r with
  | some resp =>
      if resp.ok then Except.ok resp.body
      else Except.error (ApiError.serverError resp.status)
  | none => Except.error ApiError.networkError

/-- `exportData`: returns the raw response text, throws on non-2xx,
rethrows caught errors. -/
def exportData (r : FetchOutcome String) : Except ApiError String :=
  match r with
  | some resp =>
      if resp.ok then Except.ok resp.body
      else Except.error (ApiError.serverError resp.status)
  | none => Except.error ApiError.networkError

/-- A displayed statistic of the dashboard: `unavailable` is the `"--"`
placeholder; `val x` is the number that `toFixed(1)` / `toString()` renders
(`val none` renders as the string `"NaN"`). -/
inductive StatDisplay where
  | unavailable
  | val (x : JSNum)
deriving Repr, DecidableEq

/-- One channel of the dashboard statistics object. -/
structure ChannelStats where
  current : StatDisplay
  min : StatDisplay
  max : StatDisplay
  avg : StatDisplay
  trend : JSNum
deriving Repr, DecidableEq

/-- The full statistics object of the dashboard. -/
structure Statistics where
  temperature : ChannelStats
  humidity : ChannelStats
  light : ChannelStats
deriving Repr, DecidableEq

/-- The placeholder channel returned for an empty (or all-invalid) series:
every displayed value `"--"` and `trend: 0`. -/
def placeholderChannel : ChannelStats :=
  { current := StatDisplay.unavailable
    min := StatDisplay.unavailable
    max := StatDisplay.unavailable
    avg := StatDisplay.unavailable
    trend := some 0 }

/-- The placeholder statistics object. -/
def placeholderStats : Statistics :=
  { temperature := placeholderChannel
    humidity := placeholderChannel
    light := placeholderChannel }

/-- The `validData` predicate of the dashboard `statistics` memo: every one
of the three channels must be a non-NaN number for the reading to be kept. -/
def isValidReading (d : SensorData) : Bool :=
  d.temperature.isSome && d.humidity.isSome && d.ldr.isSome

/-- The non-degenerate branch of the dashboard `statistics` memo
(dashboard.tsx lines 214-261), evaluated when `validData` is non-empty:
per-channel current / min / max / avg and the first-half-versus-second-half
trend with `midPoint = Math.floor(validData.length / 2)`.  Note that the
first-half mean divides by `midPoint` even when it is `0`. -/
def computeStats (validData : List SensorData) (latest : Option SensorData) :
    Statistics :=
  let temps := validData.map (fun d => d.temperature)
  let humids := validData.map (fun d => d.humidity)
  let lights := validData.map (fun d => d.ldr)
  let midPoint := validData.length / 2
  let firstHalfTemp := jsDivNat (jsSum (temps.take midPoint)) midPoint
  let firstHalfHumid := jsDivNat (jsSum (humids.take midPoint)) midPoint
  let firstHalfLight := jsDivNat (jsSum (lights.take midPoint)) midPoint
  let secondHalfTemp :=
    jsDivNat (jsSum (temps.drop midPoint)) (validData.length - midPoint)
  let secondHalfHumid :=
    jsDivNat (jsSum (humids.drop midPoint)) (validData.length - midPoint)
  let secondHalfLight :=
    jsDivNat (jsSum (lights.drop midPoint)) (validData.length - midPoint)
  { temperature :=
      { current := match latest with
                   | some r => StatDisplay.val r.temperature
                   | none => StatDisplay.unavailable
        min := StatDisplay.val (jsListMin temps)
        max := StatDisplay.val (jsListMax temps)
        avg := StatDisplay.val (jsDivNat (jsSum temps) temps.length)
        trend := jsSub secondHalfTemp firstHalfTemp }
    humidity :=
      { current := match latest with
                   | some r => StatDisplay.val r.humidity
                   | none => StatDisplay.unavailable
        min := StatDisplay.val (jsListMin humids)
        max := StatDisplay.val (jsListMax humids)
        avg := StatDisplay.val (jsDivNat (jsSum humids) humids.length)
        trend := jsSub secondHalfHumid firstHalfHumid }
    light :=
      { current := match latest with
                   | some r => StatDisplay.val r.ldr
                   | none => StatDisplay.unavailable
        min := StatDisplay.val (jsListMin lights)
        max := StatDisplay.val (jsListMax lights)
        avg := StatDisplay.val (jsRound (jsDivNat (jsSum lights) lights.length))
        trend := jsSub secondHalfLight firstHalfLight } }

/-- The dashboard `statistics` memo (dashboard.tsx lines 175-262): the
placeholder object for an empty series or an all-invalid series, otherwise
`computeStats` over the filtered readings. -/
def statistics (data : List SensorData) (latest : Option SensorData) :
    Statistics :=
  if data.length = 0 then placeholderStats
  else
    let validData := data.filter isValidReading
    if validData.length = 0 then placeholderStats
    else computeStats validData latest

/-- `arr.filter((_, i) => p i)` with an explicit running index. -/
def jsFilterIdxAux {α : Type} (p : ℕ → Bool) : ℕ → List α → List α
  | _, [] => []
  | i, a :: as =>
      if p i then a :: jsFilterIdxAux p (i + 1) as
      else jsFilterIdxAux p (i + 1) as

/-- `arr.filter((_, i) => p i)`. -/
def jsFilterIdx {α : Type} (p : ℕ → Bool) (l : List α) : List α :=
  jsFilterIdxAux p 0 l

/-- The `maxPoints` chosen per selected time range (dashboard.tsx lines
300-302): 30 for 7+ days, 25 for 24+ hours, otherwise 20. -/
def chartMaxPoints (hours : ℕ) : ℕ :=
  if hours ≥ 168 then 30 else if hours ≥ 24 then 25 else 20

/-- The sampling stride `Math.max(1, Math.floor(length / maxPoints))`.
(The sources only ever call this with `maxPoints ∈ {20, 25, 30}`.) -/
def chartStep (n maxPoints : ℕ) : ℕ := max 1 (n / maxPoints)

/-- The chart-shaping sampler (dashboard.tsx lines 304-307): the series is
reversed into chronological order, then every `step`-th element is kept. -/
def sampledData (data : List SensorData) (maxPoints : ℕ) : List SensorData :=
  let reversedData := data.reverse
  let step := chartStep reversedData.length maxPoints
  jsFilterIdx (fun i => i % step == 0) reversedData

/-- The plotted value of a raw channel (temperature, humidity): the value
itself when it is a non-NaN number, otherwise `0`. -/
def plotValue (x : JSNum) : ℚ :=
  match x with
  | some q => q
  | none => 0

/-- The plotted value of the light channel: `ldr / 10` when it is a non-NaN
number, otherwise `0`. -/
def plotLight (x : JSNum) : ℚ :=
  match x with
  | some q => q / 10
  | none => 0

/-- The temperature dataset of `chartData` (dashboard.tsx lines 370-376).
For an empty series `chartData` returns empty datasets, which coincides with
this formula. -/
def chartTempData (data : List SensorData) (maxPoints : ℕ) : List ℚ :=
  (sampledData data maxPoints).map (fun item => plotValue item.temperature)

/-- The humidity dataset of `chartData` (dashboard.tsx lines 385-388). -/
def chartHumidData (data : List SensorData) (maxPoints : ℕ) : List ℚ :=
  (sampledData data maxPoints).map (fun item => plotValue item.humidity)

/-- The light dataset of `chartData` (dashboard.tsx lines 398-401): the
sampled `ldr` is rescaled to `ldr / 10`. -/
def chartLightData (data : List SensorData) (maxPoints : ℕ) : List ℚ :=
  (sampledData data maxPoints).map (fun item => plotLight item.ldr)

/-- Outcome of the settings screen's save-interval handler: either the
client-side rejection (validation alert, early return) or the network call
`updateSamplingInterval(Math.floor(seconds))`. -/
inductive SaveIntervalAction where
  | rejected
  | network (interval : ℤ)
deriving Repr, DecidableEq

/-- `onSaveInterval` of settings.tsx (lines 180-195) after
`Number(samplingInterval)` has been evaluated: a non-finite or non-positive
value is rejected before any network activity; otherwise
`updateSamplingInterval(Math.floor(seconds))` is issued. -/
def onSaveInterval (seconds : JSNum) : SaveIntervalAction :=
  match seconds with
  | none => SaveIntervalAction.rejected
  | some s =>
      if s ≤ 0 then SaveIntervalAction.rejected
      else SaveIntervalAction.network ⌊s⌋

/-- Whether the save-interval handler reached the network call. -/
def issuesNetworkCall : SaveIntervalAction → Bool
  | SaveIntervalAction.rejected => false
  | SaveIntervalAction.network _ => true

/-- The dashboard state touched by the fetch cycle's merge step. -/
structure DashboardState where
  data : List SensorData
  latestReading : Option SensorData
deriving Repr, DecidableEq

/-- The projection of a latest-endpoint payload to the stored reading
(dashboard.tsx lines 99-104). -/
def readingOfLatest (l : LatestSensorReading) : SensorData :=
  { temperature := l.temperature
    humidity := l.humidity
    ldr := l.ldr
    timestamp := l.timestamp }

/-- The merge step of `fetchData` (dashboard.tsx lines 97-126).  `latest` is
the latest-endpoint result after `fetchWithTimeout` (`none` only on
timeout — a failed call yields the truthy `Not Connected` fallback), and
`readings` is the ranged-history result (`none` on timeout).  The stored
latest reading is replaced by the endpoint value only when it carries no
`message`, and by `readings[0]` only when `latest` is `null`. -/
def processFetch (prev : DashboardState)
    (latest : Option LatestSensorReading)
    (readings : Option (List SensorData)) : DashboardState :=
  let afterLatest : Option SensorData :=
    match latest with
    | some l =>
        if l.message.isNone then some (readingOfLatest l)
        else prev.latestReading
    | none => prev.latestReading
  match readings with
  | some rs =>
      { data := rs
        latestReading :=
          match rs, latest with
          | r :: _, none => some r
          | _, _ => afterLatest }
  | none => { data := [], latestReading := afterLatest }

/-- The reading the dashboard actually shows (dashboard.tsx line 172):
the stored latest reading, else the first element of the history. -/
def shownLatest (s : DashboardState) : Option SensorData :=
  match s.latestReading with
  | some r => some r
  | none => s.data.head?

/-- Length of an indexed filter with running start index `i`: it counts the
offsets `j` below the list length whose shifted index satisfies the
predicate. -/
theorem length_jsFilterIdxAux {α : Type} (p : ℕ → Bool) :
    ∀ (l : List α) (i : ℕ),
      (jsFilterIdxAux p i l).length
        = (List.range l.length).countP (fun j => p (j + i)) := by
  intro l
  induction l with
  | nil => intro i; simp [jsFilterIdxAux]
  | cons a as ih =>
      intro i
      have hfun : ((fun j => p (j + i)) ∘ Nat.succ) = fun j => p (j + (i + 1)) := by
        funext j
        show p (j.succ + i) = p (j + (i + 1))
        congr 1
        omega
      rw [jsFilterIdxAux]
      rw [List.length_cons, List.range_succ_eq_map, List.countP_cons,
        List.countP_map, hfun]
      cases h : p i with
      | true => simp [h, ih (i + 1)]
      | false => simp [h, ih (i + 1)]

/-- Counting the multiples of `step` below `n` gives the ceiling of
`n / step`. -/
theorem countP_range_multiples (step : ℕ) (hstep : 0 < step) :
    ∀ n : ℕ, (List.range n).countP (fun j => j % step == 0)
      = (n + step - 1) / step := by
  intro n
  induction n with
  | zero => simp [Nat.div_eq_of_lt, hstep]
  | succ n ih =>
      rw [List.range_succ, List.countP_append, ih]
      by_cases h : n % step = 0
      · have hd : step ∣ n := Nat.dvd_of_mod_eq_zero h
        obtain ⟨k, hk⟩ := hd
        subst hk
        have h1 : step * k + step - 1 = (step - 1) + step * k := by omega
        have h2 : step * k + 1 + step - 1 = step + step * k := by omega
        rw [h1, h2, Nat.add_mul_div_left _ _ hstep, Nat.add_mul_div_left _ _ hstep]
        have h3 : (step - 1) / step = 0 := Nat.div_eq_of_lt (by omega)
        have h4 : step / step = 1 := Nat.div_self hstep
        simp [h, h3, h4]
        omega
      · have hn : 1 ≤ n := by
          rcases Nat.eq_zero_or_pos n with h0 | h1
          · subst h0; simp at h
          · exact h1
        have h4 : ¬ step ∣ n := by
          intro hd
          obtain ⟨k, hk⟩ := hd
          subst hk
          simp [Nat.mul_mod_right] at h
        have h3 : n = (n - 1) + 1 := by omega
        have h6 : ¬ step ∣ (n - 1) + 1 := by
          rw [← h3]
          exact h4
        have h5 : n / step = (n - 1) / step := by
          conv_lhs => rw [h3]
          rw [Nat.succ_div, if_neg h6, Nat.add_zero]
        have h1 : n + 1 + step - 1 = n + step := by omega
        have h2 : n + step - 1 = (n - 1) + step := by omega
        rw [h1, h2, Nat.add_div_right _ hstep, Nat.add_div_right _ hstep, ← h5]
        simp [h]

/-- The sampling stride is always positive. -/
theorem chartStep_pos (n maxPoints : ℕ) : 0 < chartStep n maxPoints :=
  le_max_left 1 _

/-- The sampler keeps exactly the ceiling of `length / step` points; in
particular the point count depends only on the series length. -/
theorem sampledData_length (data : List SensorData) (maxPoints : ℕ) :
    (sampledData data maxPoints).length
      = (data.length + chartStep data.length maxPoints - 1)
          / chartStep data.length maxPoints := by
  have h := length_jsFilterIdxAux
    (fun i => i % chartStep data.reverse.length maxPoints == 0) data.reverse 0
  simp only [sampledData, jsFilterIdx]
  rw [h, List.length_reverse]
  simp only [Nat.add_zero]
  exact countP_range_multiples _ (chartStep_pos _ _) _

/-- Unfolding of `statistics` on a non-empty series. -/
theorem statistics_eq_of_ne_nil (data : List SensorData)
    (latest : Option SensorData) (h : data ≠ []) :
    statistics data latest
      = if (data.filter isValidReading).length = 0 then placeholderStats
        else computeStats (data.filter isValidReading) latest := by
  unfold statistics
  rw [if_neg (by simpa using h)]

/-- Dropping an invalid reading anywhere in the series leaves the whole
statistics object unchanged: the `validData` filter removes the entire
reading, so none of its channels contributes to any aggregate. -/
theorem statistics_filter_invalid (pre post : List SensorData)
    (d : SensorData) (latest : Option SensorData)
    (h : isValidReading d = false) :
    statistics (pre ++ d :: post) latest = statistics (pre ++ post) latest := by
  have hfilter : (pre ++ d :: post).filter isValidReading
      = (pre ++ post).filter isValidReading := by
    simp [List.filter_append, List.filter_cons, h]
  by_cases hpp : pre ++ post = []
  · rw [statistics_eq_of_ne_nil _ latest (by simp), hfilter, hpp]
    simp [statistics]
  · rw [statistics_eq_of_ne_nil _ latest (by simp),
      statistics_eq_of_ne_nil _ latest hpp, hfilter]

/-- Claim C1: the spec says a series whose filtered length is exactly 1 has
trend 0 on every channel.  The code divides the first-half sum by
`midPoint = 0`, producing `0/0 = NaN`, so the trend of every channel of a
single-reading series is NaN (`none`), not 0 — the code, not the claim, is
at fault (the insight row would render "falling by NaN"). -/
theorem c1_single_valid_reading_trend_is_nan :
    (statistics [⟨some 25, some 50, some 300, "2024-01-01T00:00:00.000Z"⟩] none).temperature.trend = none
    ∧ (statistics [⟨some 25, some 50, some 300, "2024-01-01T00:00:00.000Z"⟩] none).humidity.trend = none
    ∧ (statistics [⟨some 25, some 50, some 300, "2024-01-01T00:00:00.000Z"⟩] none).light.trend = none
    ∧ (none : JSNum) ≠ some 0 := by
  refine ⟨rfl, rfl, rfl, by simp⟩

/-- Claim C2 counterexample: a reading whose temperature is NaN but whose
humidity (50) is valid is dropped from the humidity aggregates as well —
the humidity average of `[{NaN, 50, 100}, {20, 60, 200}]` is 60, not the
55 (and min 60, not 50) that per-channel independence would give. -/
theorem c2_nan_channel_not_independent :
    (statistics [⟨none, some 50, some 100, "a"⟩, ⟨some 20, some 60, some 200, "b"⟩] none).humidity.avg
      = StatDisplay.val (some 60)
    ∧ (statistics [⟨none, some 50, some 100, "a"⟩, ⟨some 20, some 60, some 200, "b"⟩] none).humidity.min
      = StatDisplay.val (some 60)
    ∧ StatDisplay.val (some 60) ≠ StatDisplay.val (some 55)
    ∧ StatDisplay.val (some 60) ≠ StatDisplay.val (some 50) := by
  refine ⟨?_, ?_, by simp, by simp⟩ <;>
    simp [statistics, computeStats, isValidReading, jsSum, jsAdd, jsDivNat,
      jsListMin, jsListMax, jsMin2, jsMax2] <;> norm_num

/-- Claim C2 as amended: a reading with a NaN in any channel is excluded
from the aggregates of all three channels (the validity filter drops the
whole reading), while the chart stage keeps the point count (it depends
only on the series length) and plots any NaN channel as zero. -/
theorem c2_invalid_reading_excluded_from_all_channels
    (pre post : List SensorData) (d dokay : SensorData)
    (latest : Option SensorData) (maxPoints : ℕ)
    (h : isValidReading d = false) :
    statistics (pre ++ d :: post) latest = statistics (pre ++ post) latest
    ∧ (sampledData (pre ++ d :: post) maxPoints).length
        = (sampledData (pre ++ dokay :: post) maxPoints).length
    ∧ plotValue none = 0 ∧ plotLight none = 0 := by
  refine ⟨statistics_filter_invalid pre post d latest h, ?_, rfl, rfl⟩
  rw [sampledData_length, sampledData_length]
  simp [List.length_append]

/-- Witness for the amended claim C2 at a concrete invalid reading. -/
theorem c2_invalid_reading_excluded_from_all_channels_witness :
    isValidReading ⟨none, some 50, some 100, "a"⟩ = false
    ∧ (statistics ([] ++ ⟨none, some 50, some 100, "a"⟩ :: [⟨some 20, some 60, some 200, "b"⟩]) none
        = statistics ([] ++ [⟨some 20, some 60, some 200, "b"⟩]) none
      ∧ (sampledData ([] ++ ⟨none, some 50, some 100, "a"⟩ :: [⟨some 20, some 60, some 200, "b"⟩]) 20).length
        = (sampledData ([] ++ ⟨some 7, some 8, some 9, "c"⟩ :: [⟨some 20, some 60, some 200, "b"⟩]) 20).length
      ∧ plotValue none = 0 ∧ plotLight none = 0) :=
  ⟨rfl, c2_invalid_reading_excluded_from_all_channels [] [⟨some 20, some 60, some 200, "b"⟩]
    ⟨none, some 50, some 100, "a"⟩ ⟨some 7, some 8, some 9, "c"⟩ none 20 rfl⟩

/-- Claim C3 counterexample: on a non-2xx response, `queueCommand` and
`updateSamplingInterval` return the parsed body without any error, and
`getSensorDataByRange` returns the empty list — none of the three raises
an error carrying the HTTP status. -/
theorem c3_non2xx_not_raised :
    queueCommand (some ⟨false, 500, "body"⟩) = Except.ok "body"
    ∧ updateSamplingInterval (some ⟨false, 500, "body"⟩) = Except.ok "body"
    ∧ getSensorDataByRange (some ⟨false, 500, [⟨some 1, some 2, some 3, "t"⟩]⟩) = []
    ∧ ∀ s : ℕ, (Except.ok "body" : Except ApiError String)
        ≠ Except.error (ApiError.serverError s) := by
  refine ⟨rfl, rfl, rfl, by intro s; simp⟩

/-- Claim C3 as amended: the operations that check `response.ok` throw
`Server Error: status` on a non-2xx response; `queueCommand` and
`updateSamplingInterval` return the parsed body regardless of the status,
and `getSensorDataByRange` returns the empty list instead of raising. -/
theorem c3_non2xx_error_policy {β : Type} (resp : HttpResponse β)
    (sresp : HttpResponse String) (dresp : HttpResponse DeviceSettings)
    (rresp : HttpResponse (List SensorData))
    (tOffset hOffset lThr : ℚ) (tRange hRange : ThresholdRange)
    (action : ControlAction)
    (h : resp.ok = false) (hs : sresp.ok = false)
    (hd : dresp.ok = false) (hr : rresp.ok = false) :
    enableTempSensor (some resp) = Except.error (ApiError.serverError resp.status)
    ∧ disableTempSensor (some resp) = Except.error (ApiError.serverError resp.status)
    ∧ enableLightSensor (some resp) = Except.error (ApiError.serverError resp.status)
    ∧ disableLightSensor (some resp) = Except.error (ApiError.serverError resp.status)
    ∧ updateCalibration tOffset hOffset lThr (some resp)
        = Except.error (ApiError.serverError resp.status)
    ∧ updateAlertThresholds tRange hRange (some resp)
        = Except.error (ApiError.serverError resp.status)
    ∧ triggerImmediateRead (some resp) = Except.error (ApiError.serverError resp.status)
    ∧ deviceControl action (some resp) = Except.error (ApiError.serverError resp.status)
    ∧ exportData (some sresp) = Except.error (ApiError.serverError sresp.status)
    ∧ getDeviceSettings (some dresp) = Except.error (ApiError.serverError dresp.status)
    ∧ queueCommand (some resp) = Except.ok resp.body
    ∧ updateSamplingInterval (some resp) = Except.ok resp.body
    ∧ getSensorDataByRange (some rresp) = [] := by
  refine ⟨?_, ?_, ?_, ?_, ?_, ?_, ?_, ?_, ?_, ?_, rfl, rfl, ?_⟩ <;>
    simp [enableTempSensor, disableTempSensor, enableLightSensor,
      disableLightSensor, updateCalibration, updateAlertThresholds,
      triggerImmediateRead, deviceControl, exportData, getDeviceSettings,
      getSensorDataByRange, h, hs, hd, hr]

/-- Witness for the amended claim C3 at concrete 500/404 responses. -/
theorem c3_non2xx_error_policy_witness :
    (⟨false, 500, "b"⟩ : HttpResponse String).ok = false
    ∧ (enableTempSensor (some (⟨false, 500, "b"⟩ : HttpResponse String))
        = Except.error (ApiError.serverError 500)
      ∧ disableTempSensor (some (⟨false, 500, "b"⟩ : HttpResponse String))
        = Except.error (ApiError.serverError 500)
      ∧ enableLightSensor (some (⟨false, 500, "b"⟩ : HttpResponse String))
        = Except.error (ApiError.serverError 500)
      ∧ disableLightSensor (some (⟨false, 500, "b"⟩ : HttpResponse String))
        = Except.error (ApiError.serverError 500)
      ∧ updateCalibration 0 0 512 (some (⟨false, 500, "b"⟩ : HttpResponse String))
        = Except.error (ApiError.serverError 500)
      ∧ updateAlertThresholds ⟨10, 35⟩ ⟨30, 80⟩ (some (⟨false, 500, "b"⟩ : HttpResponse String))
        = Except.error (ApiError.serverError 500)
      ∧ triggerImmediateRead (some (⟨false, 500, "b"⟩ : HttpResponse String))
        = Except.error (ApiError.serverError 500)
      ∧ deviceControl ControlAction.led_on (some (⟨false, 500, "b"⟩ : HttpResponse String))
        = Except.error (ApiError.serverError 500)
      ∧ exportData (some ⟨false, 404, "csv"⟩)
        = Except.error (ApiError.serverError 404)
      ∧ getDeviceSettings (some ⟨false, 500, ⟨0, 0, 512, ⟨⟨10, 35⟩, ⟨30, 80⟩, ⟨0, 1023⟩⟩, true, false⟩⟩)
        = Except.error (ApiError.serverError 500)
      ∧ queueCommand (some (⟨false, 500, "b"⟩ : HttpResponse String)) = Except.ok "b"
      ∧ updateSamplingInterval (some (⟨false, 500, "b"⟩ : HttpResponse String)) = Except.ok "b"
      ∧ getSensorDataByRange (some ⟨false, 500, [⟨some 1, some 2, some 3, "t"⟩]⟩) = []) :=
  ⟨rfl, c3_non2xx_error_policy ⟨false, 500, "b"⟩ ⟨false, 404, "csv"⟩
    ⟨false, 500, ⟨0, 0, 512, ⟨⟨10, 35⟩, ⟨30, 80⟩, ⟨0, 1023⟩⟩, true, false⟩⟩
    ⟨false, 500, [⟨some 1, some 2, some 3, "t"⟩]⟩
    0 0 512 ⟨10, 35⟩ ⟨30, 80⟩ ControlAction.led_on rfl rfl rfl rfl⟩

/-- Claim C4 counterexample: a failed latest-endpoint call does not return
`null` but the truthy `Not Connected` fallback, so the `!latest` branch
never fires; with a previously stored latest reading (here `{1,2,3}`) and a
non-empty history (first element `{4,5,6}`) the dashboard keeps showing the
stale stored reading instead of the history's first element. -/
theorem c4_failed_latest_keeps_stale_reading :
    getLatestSensorReading "now" none
      = ⟨some 0, some 0, some 0, "now", some "Not Connected"⟩
    ∧ shownLatest (processFetch ⟨[], some ⟨some 1, some 2, some 3, "t0"⟩⟩
        (some (getLatestSensorReading "now" none))
        (some [⟨some 4, some 5, some 6, "t1"⟩]))
      = some ⟨some 1, some 2, some 3, "t0"⟩
    ∧ (some (⟨some 1, some 2, some 3, "t0"⟩ : SensorData))
        ≠ some (⟨some 4, some 5, some 6, "t1"⟩ : SensorData) := by
  refine ⟨rfl, rfl, by simp⟩

/-- Claim C4 as amended: the latest reading shown comes from the dedicated
endpoint when that call succeeds; when the call timed out (returned null)
and the history is non-empty the history's first element is stored as the
latest reading; when the call returned the `Not Connected` fallback the
previously stored latest reading is kept, and the history's first element
is shown only when no stored reading exists. -/
theorem c4_latest_merge_policy :
    (∀ (prev : DashboardState) (l : LatestSensorReading)
        (readings : Option (List SensorData)),
      l.message = none →
      shownLatest (processFetch prev (some l) readings)
        = some (readingOfLatest l))
    ∧ (∀ (prev : DashboardState) (r : SensorData) (rest : List SensorData),
        (processFetch prev none (some (r :: rest))).latestReading = some r)
    ∧ (∀ (prev : DashboardState) (l : LatestSensorReading) (r : SensorData)
          (rest : List SensorData),
        l.message.isSome = true →
        (processFetch prev (some l) (some (r :: rest))).latestReading
            = prev.latestReading
        ∧ (prev.latestReading = none →
            shownLatest (processFetch prev (some l) (some (r :: rest)))
              = some r)) := by
  refine ⟨?_, ?_, ?_⟩
  · intro prev l readings hmsg
    cases readings with
    | none => simp [processFetch, shownLatest, hmsg]
    | some rs =>
        cases rs with
        | nil => simp [processFetch, shownLatest, hmsg]
        | cons r rest => simp [processFetch, shownLatest, hmsg]
  · intro prev r rest
    simp [processFetch]
  · intro prev l r rest hmsg
    have hne : l.message.isNone = false := by
      cases hm : l.message <;> simp_all
    constructor
    · simp [processFetch, hne]
    · intro hprev
      simp [processFetch, shownLatest, hne, hprev]

/-- Witness for the amended claim C4 at concrete states and readings. -/
theorem c4_latest_merge_policy_witness :
    shownLatest (processFetch ⟨[], none⟩ (some ⟨some 1, some 2, some 3, "t", none⟩) none)
      = some (readingOfLatest ⟨some 1, some 2, some 3, "t", none⟩)
    ∧ (processFetch ⟨[], none⟩ none (some (⟨some 4, some 5, some 6, "u"⟩ :: []))).latestReading
      = some ⟨some 4, some 5, some 6, "u"⟩
    ∧ ((processFetch ⟨[], none⟩ (some (notConnectedReading "now"))
          (some (⟨some 4, some 5, some 6, "u"⟩ :: []))).latestReading
        = (⟨[], none⟩ : DashboardState).latestReading
      ∧ ((⟨[], none⟩ : DashboardState).latestReading = none →
          shownLatest (processFetch ⟨[], none⟩ (some (notConnectedReading "now"))
            (some (⟨some 4, some 5, some 6, "u"⟩ :: [])))
            = some ⟨some 4, some 5, some 6, "u"⟩)) :=
  ⟨c4_latest_merge_policy.1 ⟨[], none⟩ ⟨some 1, some 2, some 3, "t", none⟩ none rfl,
   c4_latest_merge_policy.2.1 ⟨[], none⟩ ⟨some 4, some 5, some 6, "u"⟩ [],
   c4_latest_merge_policy.2.2 ⟨[], none⟩ (notConnectedReading "now")
     ⟨some 4, some 5, some 6, "u"⟩ [] rfl⟩

/-- Claim C5 counterexample: a ranged-history request with the row count
omitted still carries a `limit` parameter — the client substitutes its own
default `"100"`, so the request is not issued without a row-count
restriction. -/
theorem c5_omitted_limit_sends_default_100 :
    rangeParams "2024-01-01T00:00:00.000Z" "2024-01-02T00:00:00.000Z" none
      = [("start", "2024-01-01T00:00:00.000Z"),
         ("end", "2024-01-02T00:00:00.000Z"), ("limit", "100")]
    ∧ ("limit", "100")
        ∈ rangeParams "2024-01-01T00:00:00.000Z" "2024-01-02T00:00:00.000Z" none := by
  refine ⟨rfl, by simp [rangeParams]⟩

/-- Claim C5 as amended: when the caller omits the maximum row count (or
passes the falsy 0) the client sends its own default `limit=100`, so the
server's default never applies; a non-zero limit is forwarded as given. -/
theorem c5_limit_parameter_policy (start endTime : String) (l : ℕ)
    (h : l ≠ 0) :
    rangeParams start endTime none
      = [("start", start), ("end", endTime), ("limit", "100")]
    ∧ rangeParams start endTime (some 0)
      = [("start", start), ("end", endTime), ("limit", "100")]
    ∧ rangeParams start endTime (some l)
      = [("start", start), ("end", endTime), ("limit", toString l)] := by
  refine ⟨rfl, rfl, ?_⟩
  simp [rangeParams, h]

/-- Witness for the amended claim C5 at limit 50. -/
theorem c5_limit_parameter_policy_witness :
    (50 : ℕ) ≠ 0
    ∧ (rangeParams "s" "e" none = [("start", "s"), ("end", "e"), ("limit", "100")]
      ∧ rangeParams "s" "e" (some 0) = [("start", "s"), ("end", "e"), ("limit", "100")]
      ∧ rangeParams "s" "e" (some 50) = [("start", "s"), ("end", "e"), ("limit", toString 50)]) :=
  ⟨by decide, c5_limit_parameter_policy "s" "e" 50 (by decide)⟩

/-- Claim C6: each read operation turns any transport failure or non-2xx
response into its documented fallback instead of raising — a zeroed
`Not Connected` reading for the latest endpoint, the empty list for ranged
history, the disconnected/zeroed record for device status — while
`getDeviceSettings` propagates the error to the caller. -/
theorem c6_read_operation_fallbacks (now : String)
    (rLat : HttpResponse LatestSensorReading)
    (rRange : HttpResponse (List SensorData))
    (rStat : HttpResponse DeviceStatus)
    (rSet : HttpResponse DeviceSettings)
    (hLat : rLat.ok = false) (hRange : rRange.ok = false)
    (hStat : rStat.ok = false) (hSet : rSet.ok = false) :
    getLatestSensorReading now none = notConnectedReading now
    ∧ getLatestSensorReading now (some rLat) = notConnectedReading now
    ∧ notConnectedReading now
        = ⟨some 0, some 0, some 0, now, some "Not Connected"⟩
    ∧ getSensorDataByRange none = []
    ∧ getSensorDataByRange (some rRange) = []
    ∧ getDeviceStatus none = deviceStatusFallback
    ∧ getDeviceStatus (some rStat) = deviceStatusFallback
    ∧ deviceStatusFallback = ⟨false, 0, 0, "N/A", none, some "Not Connected"⟩
    ∧ getDeviceSettings none = Except.error ApiError.networkError
    ∧ getDeviceSettings (some rSet)
        = Except.error (ApiError.serverError rSet.status) := by
  refine ⟨rfl, ?_, rfl, rfl, ?_, rfl, ?_, rfl, rfl, ?_⟩ <;>
    simp [getLatestSensorReading, getSensorDataByRange, getDeviceStatus,
      getDeviceSettings, hLat, hRange, hStat, hSet]

/-- Witness for claim C6 at concrete 503 responses. -/
theorem c6_read_operation_fallbacks_witness :
    (⟨false, 503, notConnectedReading "x"⟩ : HttpResponse LatestSensorReading).ok = false
    ∧ (getLatestSensorReading "now" none = notConnectedReading "now"
      ∧ getLatestSensorReading "now" (some ⟨false, 503, notConnectedReading "x"⟩)
          = notConnectedReading "now"
      ∧ notConnectedReading "now"
          = ⟨some 0, some 0, some 0, "now", some "Not Connected"⟩
      ∧ getSensorDataByRange none = []
      ∧ getSensorDataByRange (some ⟨false, 503, []⟩) = []
      ∧ getDeviceStatus none = deviceStatusFallback
      ∧ getDeviceStatus (some ⟨false, 503, deviceStatusFallback⟩) = deviceStatusFallback
      ∧ deviceStatusFallback = ⟨false, 0, 0, "N/A", none, some "Not Connected"⟩
      ∧ getDeviceSettings none = Except.error ApiError.networkError
      ∧ getDeviceSettings (some ⟨false, 503, ⟨0, 0, 512, ⟨⟨10, 35⟩, ⟨30, 80⟩, ⟨0, 1023⟩⟩, true, false⟩⟩)
          = Except.error (ApiError.serverError 503)) :=
  ⟨rfl, c6_read_operation_fallbacks "now" ⟨false, 503, notConnectedReading "x"⟩
    ⟨false, 503, []⟩ ⟨false, 503, deviceStatusFallback⟩
    ⟨false, 503, ⟨0, 0, 512, ⟨⟨10, 35⟩, ⟨30, 80⟩, ⟨0, 1023⟩⟩, true, false⟩⟩
    rfl rfl rfl rfl⟩

/-- Claim C7: the empty series yields the placeholder statistics — every
displayed value is the `"--"` sentinel and every trend is 0 — and, the
embedding being total, no computation error can occur. -/
theorem c7_empty_series_placeholder_stats (latest : Option SensorData) :
    statistics [] latest = placeholderStats
    ∧ placeholderStats
        = ⟨placeholderChannel, placeholderChannel, placeholderChannel⟩
    ∧ placeholderChannel
        = ⟨StatDisplay.unavailable, StatDisplay.unavailable,
           StatDisplay.unavailable, StatDisplay.unavailable, some 0⟩ :=
  ⟨rfl, rfl, rfl⟩

/-- Claim C8: the chart shaper samples the reversed series at stride
`max(1, floor(length / target))`, keeping exactly `ceil(length / stride)`
points; for a 100-element series and target 20 the stride is 5 and exactly
20 points remain.  (The hypothesis restricts to a positive target, the only
values the code uses: 20, 25 or 30.) -/
theorem c8_downsample_point_count (data : List SensorData) (maxPoints : ℕ)
    (h : 0 < maxPoints) :
    (sampledData data maxPoints).length
      = (data.length + chartStep data.length maxPoints - 1)
          / chartStep data.length maxPoints
    ∧ chartStep 100 20 = 5
    ∧ (data.length = 100 → (sampledData data 20).length = 20) := by
  refine ⟨sampledData_length data maxPoints, rfl, ?_⟩
  intro h100
  rw [sampledData_length, h100]
  rfl

/-- Witness for claim C8 on a concrete 100-element series. -/
theorem c8_downsample_point_count_witness :
    0 < 20
    ∧ (sampledData (List.replicate 100 (⟨some 1, some 2, some 3, "t"⟩ : SensorData)) 20).length
        = ((List.replicate 100 (⟨some 1, some 2, some 3, "t"⟩ : SensorData)).length
            + chartStep (List.replicate 100 (⟨some 1, some 2, some 3, "t"⟩ : SensorData)).length 20 - 1)
          / chartStep (List.replicate 100 (⟨some 1, some 2, some 3, "t"⟩ : SensorData)).length 20
    ∧ chartStep 100 20 = 5
    ∧ (sampledData (List.replicate 100 (⟨some 1, some 2, some 3, "t"⟩ : SensorData)) 20).length = 20 :=
  ⟨by decide,
   (c8_downsample_point_count (List.replicate 100 ⟨some 1, some 2, some 3, "t"⟩) 20 (by decide)).1,
   (c8_downsample_point_count (List.replicate 100 ⟨some 1, some 2, some 3, "t"⟩) 20 (by decide)).2.1,
   (c8_downsample_point_count (List.replicate 100 ⟨some 1, some 2, some 3, "t"⟩) 20 (by decide)).2.2 (by simp)⟩

/-- Claim C9: the save-interval handler reaches the network call exactly
when the parsed input is a finite number greater than 0; a NaN/non-finite
or non-positive input is rejected client-side, and a valid input is sent
floored. -/
theorem c9_interval_client_side_validation :
    (∀ seconds : JSNum,
      issuesNetworkCall (onSaveInterval seconds) = true
        ↔ ∃ s : ℚ, seconds = some s ∧ 0 < s)
    ∧ onSaveInterval none = SaveIntervalAction.rejected
    ∧ (∀ s : ℚ, 0 < s →
        onSaveInterval (some s) = SaveIntervalAction.network ⌊s⌋) := by
  refine ⟨?_, rfl, ?_⟩
  · intro seconds
    cases seconds with
    | none => simp [onSaveInterval, issuesNetworkCall]
    | some s =>
        constructor
        · intro htrue
          refine ⟨s, rfl, ?_⟩
          by_contra hle
          have hrej : onSaveInterval (some s) = SaveIntervalAction.rejected := by
            simp [onSaveInterval, le_of_not_lt hle]
          rw [hrej] at htrue
          simp [issuesNetworkCall] at htrue
        · rintro ⟨s1, heq, hpos⟩
          cases heq
          simp [onSaveInterval, issuesNetworkCall, not_le.mpr hpos]
  · intro s hs
    have hne : ¬ s ≤ 0 := not_le.mpr hs
    simp [onSaveInterval, hne]

/-- Witness for claim C9 at the input 3.5: valid, floored to 3. -/
theorem c9_interval_client_side_validation_witness :
    (0 : ℚ) < 7/2
    ∧ onSaveInterval (some (7/2)) = SaveIntervalAction.network ⌊(7/2 : ℚ)⌋ :=
  ⟨by norm_num, c9_interval_client_side_validation.2.2 (7/2) (by norm_num)⟩

/-- Claim C10: the chart plots the light channel rescaled to `ldr / 10`
(0 for NaN) while temperature and humidity are plotted raw, and the light
aggregates of the statistics object stay on the raw 0-1023 scale — shown
here on a concrete two-reading series with ldr values 100 and 300. -/
theorem c10_light_chart_rescaled_stats_raw :
    (∀ q : ℚ, plotLight (some q) = q / 10)
    ∧ plotLight none = 0
    ∧ (∀ q : ℚ, plotValue (some q) = q)
    ∧ chartLightData [⟨some 20, some 50, some 100, "a"⟩, ⟨some 21, some 51, some 300, "b"⟩] 20 = [30, 10]
    ∧ chartTempData [⟨some 20, some 50, some 100, "a"⟩, ⟨some 21, some 51, some 300, "b"⟩] 20 = [21, 20]
    ∧ (statistics [⟨some 20, some 50, some 100, "a"⟩, ⟨some 21, some 51, some 300, "b"⟩] none).light.min = StatDisplay.val (some 100)
    ∧ (statistics [⟨some 20, some 50, some 100, "a"⟩, ⟨some 21, some 51, some 300, "b"⟩] none).light.max = StatDisplay.val (some 300)
    ∧ (statistics [⟨some 20, some 50, some 100, "a"⟩, ⟨some 21, some 51, some 300, "b"⟩] none).light.avg = StatDisplay.val (some 200) := by
  refine ⟨fun q => rfl, rfl, fun q => rfl, ?_, ?_, ?_, ?_, ?_⟩ <;>
    simp [chartLightData, chartTempData, sampledData, chartStep, jsFilterIdx,
      jsFilterIdxAux, plotLight, plotValue, statistics, computeStats,
      isValidReading, jsSum, jsAdd, jsDivNat, jsListMin, jsListMax, jsMin2,
      jsMax2, jsRound] <;> norm_num
